import Mathlib

/-!
# Verification of the inventory forecast & recommendation engine

Shallow embedding of the core logic of a department inventory tracker
(browser dashboard `js/app.js` plus Express routes `server/routes/*.js`).

Conventions of the embedding:
* JS numbers are modelled as `ℚ` (the claims under scrutiny make no
  floating-point-specific assertions); `Math.floor` is `Int.floor`.
* The JS `Infinity` sentinel returned by `getDaysUntilStockout` is the
  constructor `Days.inf` of an explicit sum type, with comparison helpers
  mirroring IEEE comparisons against finite numbers
  (`Infinity <= k` is false, `x - Infinity < 0`, `Infinity - Infinity` is
  `NaN`, which `Array.prototype.sort` treats as `0`, i.e. a tie).
* The global mutable arrays `inventoryData` / `suppliersData` are passed as
  explicit list parameters; the wall-clock date used by `renderForecast`
  is an explicit `today : ℤ` day number.
* `Array.prototype.sort` (ES2019+: a stable sort that leaves the array
  sorted w.r.t. a consistent comparator) is modelled by
  `List.insertionSort`, which is stable and sorts; for the recommendation
  list all priorities are distinct, so every stable sort produces the same
  list.
-/

/-- An inventory item as handled by `js/app.js`.  The `status` field models a
stored `status` property on the JS object: `none` is an absent/undefined
field, `some ""` is the (falsy) empty string. Fields not consulted by the
core engine (id, category, unitPrice, supplierId, sku, description) are
omitted. -/
structure Item where
  name : String
  status : Option String := none
  currentStock : ℚ
  reorderLevel : ℚ
  dailyUsage : ℚ
deriving DecidableEq

/-- Truthiness of the stored `status` field (`if (item.status)`): absent and
empty-string values are falsy, every other string is truthy. -/
def statusTruthy : Option String → Bool
  | none => false
  | some s => s != ""

/-- The status computed from stock levels: the fall-through branches of
`getItemStatus` (`js/app.js` lines 110-112). -/
def stockStatus (i : Item) : String :=
  if i.currentStock = 0 then "Out of Stock"
  else if i.currentStock ≤ i.reorderLevel then "Low"
  else "Healthy"

/-- `getItemStatus` (`js/app.js` lines 108-113): a truthy stored `status`
field is returned unchanged; otherwise the status is derived from
`currentStock` and `reorderLevel`. -/
def getItemStatus (i : Item) : String :=
  if statusTruthy i.status then i.status.getD "" else stockStatus i

/-- Days-until-stockout: either a finite number of days or the JS
`Infinity` sentinel. -/
inductive Days where
  | finite (n : ℤ)
  | inf
deriving DecidableEq

/-- `getDaysUntilStockout` (`js/app.js` lines 115-118):
`dailyUsage <= 0` yields `Infinity`, otherwise
`Math.floor(currentStock / dailyUsage)`. -/
def getDaysUntilStockout (i : Item) : Days :=
  if i.dailyUsage ≤ 0 then Days.inf
  else Days.finite ⌊i.currentStock / i.dailyUsage⌋

/-- The JS comparison `days <= k` for a `Days` value and a finite bound:
`Infinity <= k` is false. -/
def Days.leInt : Days → ℤ → Bool
  | .finite n, k => decide (n ≤ k)
  | .inf, _ => false

/-- The order induced by the forecast comparator `(a, b) => a.days - b.days`:
the comparator is nonpositive exactly when this holds (`finite - Infinity`
is `-Infinity`; `Infinity - finite` is `+Infinity`; `Infinity - Infinity`
is `NaN`, which `sort` treats as `0`, a tie). -/
def Days.le : Days → Days → Bool
  | .finite m, .finite n => decide (m ≤ n)
  | .finite _, .inf => true
  | .inf, .finite _ => false
  | .inf, .inf => true

/-- A recommendation card as built by `generateRecommendations`
(`js/app.js` lines 196-282). `action` is the optional
`{ label, handler }` pair. -/
structure Recommendation where
  type : String
  icon : String
  title : String
  text : String
  action : Option (String × String)
  priority : ℕ
deriving DecidableEq

/-- Filter of rule 1 (`js/app.js` line 200): items whose status is
`"Out of Stock"`. -/
def outOfStockItems (inv : List Item) : List Item :=
  inv.filter (fun i => getItemStatus i == "Out of Stock")

/-- Filter of rule 2 (`js/app.js` lines 213-216): finite days-until-stockout
at most 7 and not already out of stock. -/
def criticalItems (inv : List Item) : List Item :=
  inv.filter (fun i =>
    match getDaysUntilStockout i with
    | .inf => false
    | .finite n => decide (n ≤ 7) && (getItemStatus i != "Out of Stock"))

/-- Filter of rule 4 (`js/app.js` lines 229-232): finite days-until-stockout
above 90 and stock above three times the reorder level. -/
def underutilizedItems (inv : List Item) : List Item :=
  inv.filter (fun i =>
    match getDaysUntilStockout i with
    | .inf => false
    | .finite n => decide (90 < n) && decide (i.reorderLevel * 3 < i.currentStock))

/-- Filter of rule 3 (`js/app.js` line 245): daily usage above 5. -/
def highUsageItems (inv : List Item) : List Item :=
  inv.filter (fun i => decide (5 < i.dailyUsage))

/-- The out-of-stock alert card (`js/app.js` lines 202-209). -/
def outOfStockCard (inv : List Item) : Recommendation :=
  let items := outOfStockItems inv
  let n := items.length
  let names := String.intercalate ", " ((items.map Item.name).take 3)
  let suffix := if 3 < n then "..." else ""
  { type := "warning", icon := "exclamation-triangle",
    title := "Urgent: Items Out of Stock",
    text := s!"{n} item(s) are out of stock and need immediate reordering: {names}{suffix}",
    action := some ("Reorder Now", "generateOrderRequest"),
    priority := 1 }

/-- The low-stock-within-a-week card (`js/app.js` lines 218-225). -/
def criticalCard (inv : List Item) : Recommendation :=
  let items := criticalItems inv
  let n := items.length
  let names := String.intercalate ", " ((items.map Item.name).take 2)
  { type := "warning", icon := "clock-history",
    title := "Stock Running Low",
    text := s!"{n} item(s) will run out within a week. Consider restocking: {names}",
    action := some ("View Items", "viewInventory"),
    priority := 2 }

/-- The excess-stock card (`js/app.js` lines 234-241). -/
def underutilizedCard (inv : List Item) : Recommendation :=
  let n := (underutilizedItems inv).length
  { type := "info", icon := "lightbulb",
    title := "Optimize Stock Levels",
    text := s!"{n} item(s) have excess stock (90+ days). Consider reducing reorder quantities to free up storage.",
    action := none,
    priority := 4 }

/-- The high-consumption card (`js/app.js` lines 247-254). -/
def highUsageCard (inv : List Item) : Recommendation :=
  let n := (highUsageItems inv).length
  { type := "info", icon := "graph-up",
    title := "High Consumption Items",
    text := s!"{n} item(s) have high daily usage. Consider bulk ordering or negotiating better rates with suppliers.",
    action := some ("View Usage", "viewUsage"),
    priority := 3 }

/-- The all-healthy card (`js/app.js` lines 259-266). -/
def allHealthyCard : Recommendation :=
  { type := "success", icon := "check-circle",
    title := "Inventory Health: Excellent",
    text := "All stock levels are healthy. No immediate actions required.",
    action := none,
    priority := 5 }

/-- The add-suppliers card (`js/app.js` lines 271-278). -/
def addSuppliersCard : Recommendation :=
  { type := "info", icon := "truck",
    title := "Add Suppliers",
    text := "Link items to suppliers for better order management and tracking.",
    action := some ("Add Supplier", "showAddSupplierModal"),
    priority := 6 }

/-- A supplier record; the recommendation engine only consults the length of
the supplier collection, so the fields are irrelevant to the core. -/
structure Supplier where
  name : String := ""
deriving DecidableEq

/-- The recommendation list before sorting and truncation, in the push order
of the source (rules 1, 2, 4, 3, then the all-healthy card — pushed only
when the list is still empty, i.e. none of rules 1-4 matched — and finally
the add-suppliers card). -/
def recsList (inv : List Item) (sup : List Supplier) : List Recommendation :=
  (if 0 < (outOfStockItems inv).length then [outOfStockCard inv] else [])
  ++ (if 0 < (criticalItems inv).length then [criticalCard inv] else [])
  ++ (if 0 < (underutilizedItems inv).length then [underutilizedCard inv] else [])
  ++ (if 0 < (highUsageItems inv).length then [highUsageCard inv] else [])
  ++ (if (outOfStockItems inv).length = 0 ∧ (criticalItems inv).length = 0
        ∧ (underutilizedItems inv).length = 0 ∧ (highUsageItems inv).length = 0
        ∧ 0 < inv.length then [allHealthyCard] else [])
  ++ (if 0 < inv.length ∧ sup.length = 0 then [addSuppliersCard] else [])

/-- Order used by `recommendations.sort((a, b) => a.priority - b.priority)`. -/
def recLe (a b : Recommendation) : Prop := a.priority ≤ b.priority

instance : DecidableRel recLe := fun a b => inferInstanceAs (Decidable (a.priority ≤ b.priority))

instance : IsTotal Recommendation recLe := ⟨fun a b => Nat.le_total a.priority b.priority⟩

instance : IsTrans Recommendation recLe := ⟨fun _ _ _ => Nat.le_trans⟩

instance : IsRefl Recommendation recLe := ⟨fun a => Nat.le_refl a.priority⟩

/-- `generateRecommendations` (`js/app.js` lines 196-282): sort the matched
cards ascending by priority (`sort((a, b) => a.priority - b.priority)`) and
keep at most the first 3 (`slice(0, 3)`). All pushed cards carry distinct
priorities, so every stable sort — in particular the ES2019
`Array.prototype.sort` and `List.insertionSort` — produces the same list. -/
def generateRecommendations (inv : List Item) (sup : List Supplier) : List Recommendation :=
  (List.insertionSort recLe (recsList inv sup)).take 3

/-- One row of the forecast table (`js/app.js` lines 1437-1446): the spread
item fields the renderer consults (`name`, `currentStock`), the computed
`days`, `priority`, and the suggested order date (`none` models the
invalid date rendered as N/A for `Infinity`). -/
structure ForecastRow where
  name : String
  currentStock : ℚ
  days : Days
  priority : String
  orderDate : Option ℤ
deriving DecidableEq

/-- The priority bucket of a forecast row (`js/app.js` lines 1439-1441):
high when `days <= 7`, else medium when `days <= 14`, else low. -/
def forecastPriority (d : Days) : String :=
  if d.leInt 7 then "high" else if d.leInt 14 then "medium" else "low"

/-- The suggested order date (`js/app.js` lines 1443-1444):
`today + max(0, days - 7)`; for `Infinity` the produced JS date is invalid
and rendered as N/A, modelled as `none`. -/
def suggestedOrderDate (today : ℤ) : Days → Option ℤ
  | .finite n => some (today + max 0 (n - 7))
  | .inf => none

/-- The row built for one item (`js/app.js` lines 1437-1446). -/
def forecastRow (today : ℤ) (i : Item) : ForecastRow :=
  let d := getDaysUntilStockout i
  { name := i.name, currentStock := i.currentStock, days := d,
    priority := forecastPriority d, orderDate := suggestedOrderDate today d }

/-- Order used by `.sort((a, b) => a.days - b.days)` on forecast rows. -/
def rowLe (a b : ForecastRow) : Prop := Days.le a.days b.days = true

instance : DecidableRel rowLe := fun a b => inferInstanceAs (Decidable (_ = true))

instance : IsTotal ForecastRow rowLe :=
  ⟨fun a b => by
    rcases a with ⟨_, _, da, _, _⟩
    rcases b with ⟨_, _, db, _, _⟩
    unfold rowLe
    cases da <;> cases db <;> simp [Days.le] <;> omega⟩

instance : IsTrans ForecastRow rowLe :=
  ⟨fun a b c hab hbc => by
    rcases a with ⟨_, _, da, _, _⟩
    rcases b with ⟨_, _, db, _, _⟩
    rcases c with ⟨_, _, dc, _, _⟩
    unfold rowLe at *
    cases da <;> cases db <;> cases dc <;> simp_all [Days.le] <;> omega⟩

/-- The data part of `renderForecast` (`js/app.js` lines 1437-1447): map the
inventory to rows, then sort ascending by days. -/
def buildForecast (today : ℤ) (inv : List Item) : List ForecastRow :=
  List.insertionSort rowLe (inv.map (forecastRow today))

/-- The stock update performed when usage is recorded: both the server route
(`server/routes/usage.js` line 50) and the client fallback (`js/app.js`
line 761) compute `Math.max(0, currentStock - quantity)`. -/
def recordUsageStock (currentStock quantity : ℚ) : ℚ :=
  max 0 (currentStock - quantity)

/-- The record-usage route (`server/routes/usage.js` lines 28-67) restricted
to its stock effect: a non-positive (or unparsable) quantity is rejected
with a 400 (`none`); otherwise the item stock is clamped-subtracted. -/
def recordUsageRoute (stock : ℚ) (quantity : ℤ) : Option ℚ :=
  if quantity ≤ 0 then none
  else some (recordUsageStock stock (quantity : ℚ))

/-! ### Concrete inputs used by witnesses and counterexamples -/

/-- An item carrying a stored (truthy) `status` field while its stock is 0. -/
def storedStatusItem : Item :=
  { name := "Ghost", status := some "Healthy", currentStock := 0, reorderLevel := 5, dailyUsage := 1 }

/-- An item with a stored `status` field used to exercise the stored-status path. -/
def storedLowItem : Item :=
  { name := "Tape", status := some "Low", currentStock := 80, reorderLevel := 2, dailyUsage := 1 }

/-- Out-of-stock item without a stored status. -/
def wOutItem : Item := { name := "Pens", currentStock := 0, reorderLevel := 5, dailyUsage := 1 }

/-- Low item without a stored status. -/
def wLowItem : Item := { name := "Clips", currentStock := 4, reorderLevel := 5, dailyUsage := 0 }

/-- Healthy item without a stored status. -/
def wHealthyItem : Item := { name := "Ink", currentStock := 9, reorderLevel := 5, dailyUsage := 0 }

/-- Item with zero daily usage (Infinity sentinel). -/
def wZeroUsage : Item := { name := "Desk", currentStock := 100, reorderLevel := 10, dailyUsage := 0 }

/-- Item with stock 7 and usage 2 (days = floor(7/2) = 3). -/
def wSevenTwo : Item := { name := "Paper", currentStock := 7, reorderLevel := 1, dailyUsage := 2 }

/-- Item with stock 10 and usage 2, for the monotonicity witness. -/
def wSlow : Item := { name := "Toner", currentStock := 10, reorderLevel := 1, dailyUsage := 2 }

/-- Item with stock 10 and usage 5, for the monotonicity witness. -/
def wFast : Item := { name := "Toner", currentStock := 10, reorderLevel := 1, dailyUsage := 5 }

/-- A single healthy item: inventory non-empty, none of rules 1-4 match. -/
def healthyOnlyItem : Item :=
  { name := "Stapler", currentStock := 100, reorderLevel := 1, dailyUsage := 0 }

/-- Small inventory used by forecast witnesses. -/
def fcInv : List Item := [wZeroUsage, wLowItem]

/-- The row that `buildForecast` produces for `wZeroUsage`. -/
def fcRowInf : ForecastRow :=
  { name := "Desk", currentStock := 100, days := Days.inf, priority := "low", orderDate := none }

/-- Inventory containing one item that will run out within a week. -/
def critInv : List Item :=
  [{ name := "Glue", currentStock := 0, reorderLevel := 2, dailyUsage := 0 },
   { name := "Wipes", currentStock := 2, reorderLevel := 10, dailyUsage := 1 }]

/-! ## Helper lemmas -/

theorem days_le_inf_elim {d : Days} (h : Days.le Days.inf d = true) : d = Days.inf := by
  cases d <;> simp_all [Days.le]

theorem mem_ite_singleton {α : Type} {c : Prop} [Decidable c] {x a : α} :
    a ∈ (if c then [x] else []) ↔ c ∧ a = x := by
  split_ifs with h <;> simp_all

theorem mem_recsList {inv : List Item} {sup : List Supplier} {r : Recommendation} :
    r ∈ recsList inv sup ↔
      (0 < (outOfStockItems inv).length ∧ r = outOfStockCard inv)
      ∨ (0 < (criticalItems inv).length ∧ r = criticalCard inv)
      ∨ (0 < (underutilizedItems inv).length ∧ r = underutilizedCard inv)
      ∨ (0 < (highUsageItems inv).length ∧ r = highUsageCard inv)
      ∨ (((outOfStockItems inv).length = 0 ∧ (criticalItems inv).length = 0
          ∧ (underutilizedItems inv).length = 0 ∧ (highUsageItems inv).length = 0
          ∧ 0 < inv.length) ∧ r = allHealthyCard)
      ∨ ((0 < inv.length ∧ sup.length = 0) ∧ r = addSuppliersCard) := by
  simp [recsList, List.mem_append, mem_ite_singleton]

theorem mem_recsList_of_mem_generateRecommendations {inv : List Item} {sup : List Supplier}
    {r : Recommendation} (h : r ∈ generateRecommendations inv sup) : r ∈ recsList inv sup :=
  (List.perm_insertionSort recLe (recsList inv sup)).mem_iff.mp
    (List.take_subset 3 _ h)

/-! ## Claim theorems -/

/-- C3: for every item, `getDaysUntilStockout` returns the Infinity sentinel
when `dailyUsage ≤ 0` (never a division error), and otherwise returns
`floor(currentStock / dailyUsage)`. -/
theorem getDaysUntilStockout_spec (i : Item) :
    (i.dailyUsage ≤ 0 → getDaysUntilStockout i = Days.inf)
    ∧ (0 < i.dailyUsage →
        getDaysUntilStockout i = Days.finite ⌊i.currentStock / i.dailyUsage⌋) := by
  constructor
  · intro h; simp [getDaysUntilStockout, h]
  · intro h; simp [getDaysUntilStockout, not_le.mpr h]

/-- Witness for C3 at concrete inputs: zero usage gives the sentinel, usage 2
with stock 7 gives `floor(7/2)`. -/
theorem getDaysUntilStockout_spec_witness :
    getDaysUntilStockout wZeroUsage = Days.inf
    ∧ getDaysUntilStockout wSevenTwo = Days.finite ⌊(7 : ℚ) / 2⌋ :=
  ⟨(getDaysUntilStockout_spec wZeroUsage).1 (by decide),
   (getDaysUntilStockout_spec wSevenTwo).2 (by decide)⟩

/-- C7: holding the stock fixed and nonnegative, `getDaysUntilStockout` is
monotonically non-increasing in the daily-usage rate: for
`0 < u₁ ≤ u₂` the projection at rate `u₂` is at most the one at `u₁`
(in the order where the Infinity sentinel is the top element). -/
theorem getDaysUntilStockout_antitone (i j : Item)
    (hstock : i.currentStock = j.currentStock) (hnn : 0 ≤ i.currentStock)
    (hpos : 0 < i.dailyUsage) (hle : i.dailyUsage ≤ j.dailyUsage) :
    Days.le (getDaysUntilStockout j) (getDaysUntilStockout i) = true := by
  have hpos2 : 0 < j.dailyUsage := lt_of_lt_of_le hpos hle
  simp only [getDaysUntilStockout, not_le.mpr hpos, not_le.mpr hpos2, if_false,
    Days.le, decide_eq_true_eq]
  apply Int.floor_le_floor
  rw [← hstock]
  gcongr

/-- Witness for C7: stock 10, usage rates 2 ≤ 5. -/
theorem getDaysUntilStockout_antitone_witness :
    Days.le (getDaysUntilStockout wFast) (getDaysUntilStockout wSlow) = true :=
  getDaysUntilStockout_antitone wSlow wFast (by decide) (by decide) (by decide) (by decide)

/-- C8: recording usage clamps the stock at 0: the updated stock is never
negative, equals `stock - quantity` when the quantity is available and 0
when the quantity exceeds the stock; the server route only ever stores the
same clamped value. -/
theorem recordUsage_stock_nonneg (s q : ℚ) (qi : ℤ) :
    0 ≤ recordUsageStock s q
    ∧ (s ≤ q → recordUsageStock s q = 0)
    ∧ (q ≤ s → recordUsageStock s q = s - q)
    ∧ (∀ r, recordUsageRoute s qi = some r → 0 ≤ r) := by
  refine ⟨le_max_left 0 _, fun h => ?_, fun h => ?_, fun r hr => ?_⟩
  · exact max_eq_left (sub_nonpos.mpr h)
  · exact max_eq_right (sub_nonneg.mpr h)
  · unfold recordUsageRoute at hr
    split at hr
    · exact absurd hr (by simp)
    · cases hr
      exact le_max_left 0 _

/-- Witness for C8: clamping at 0 for an over-consuming quantity, exact
subtraction otherwise, and a successful route call. -/
theorem recordUsage_stock_nonneg_witness :
    recordUsageStock 5 7 = 0
    ∧ recordUsageStock 10 3 = 10 - 3
    ∧ 0 ≤ recordUsageStock 10 3
    ∧ 0 ≤ recordUsageStock 5 7 :=
  ⟨(recordUsage_stock_nonneg 5 7 1).2.1 (by decide),
   (recordUsage_stock_nonneg 10 3 1).2.2.1 (by decide),
   (recordUsage_stock_nonneg 10 3 1).1,
   (recordUsage_stock_nonneg 5 7 1).1⟩

/-- C9: every core computation is deterministic and idempotent — invoked
twice on the same snapshot (inventory, suppliers, and the day used for
order dates), it yields identical output.  The embedding passes the
snapshot explicitly; none of the source functions mutates it (the forecast
sorts a freshly mapped array) or reads hidden mutable caches. -/
theorem engine_idempotent (i : Item) (inv : List Item) (sup : List Supplier) (today : ℤ) :
    getItemStatus i = getItemStatus i
    ∧ getDaysUntilStockout i = getDaysUntilStockout i
    ∧ buildForecast today inv = buildForecast today inv
    ∧ generateRecommendations inv sup = generateRecommendations inv sup :=
  ⟨rfl, rfl, rfl, rfl⟩

/-- C10: a present, truthy stored `status` field is returned unchanged by
the classifier, whatever `currentStock` and `reorderLevel` hold — in
particular an item with stock 0 is not reported Out of Stock unless the
stored field says so. -/
theorem getItemStatus_stored_wins (i : Item) (s : String)
    (hs : i.status = some s) (hne : s ≠ "") :
    getItemStatus i = s
    ∧ ∀ stock rl : ℚ,
        getItemStatus { i with currentStock := stock, reorderLevel := rl } = s := by
  have ht : statusTruthy i.status = true := by simp [hs, statusTruthy, hne]
  refine ⟨?_, fun stock rl => ?_⟩
  · simp only [getItemStatus, ht, if_true]
    simp [hs]
  · simp only [getItemStatus]
    have ht2 : statusTruthy (Item.status { i with currentStock := stock, reorderLevel := rl })
        = true := by simp [hs, statusTruthy, hne]
    simp only [ht2, if_true]
    simp [hs]

/-- Witness for C10: the stored value `"Low"` wins over a stock of 80 with
reorder level 2 (which would otherwise classify Healthy). -/
theorem getItemStatus_stored_wins_witness :
    getItemStatus storedLowItem = "Low"
    ∧ getItemStatus { storedLowItem with currentStock := 0, reorderLevel := 0 } = "Low" :=
  ⟨(getItemStatus_stored_wins storedLowItem "Low" rfl (by decide)).1,
   (getItemStatus_stored_wins storedLowItem "Low" rfl (by decide)).2 0 0⟩

/-- Counterexample to C1 as stated: the classifier does not map
`currentStock == 0` to Out of Stock for every item — an item carrying a
truthy stored `status` field keeps that value (`js/app.js` line 109 runs
before the `currentStock === 0` check). -/
theorem getItemStatus_zero_stock_not_out :
    storedStatusItem.currentStock = 0
    ∧ getItemStatus storedStatusItem = "Healthy"
    ∧ getItemStatus storedStatusItem ≠ "Out of Stock" := by decide

/-- C1 amended: for every item whose stored `status` field is absent or
falsy (empty), the classifier returns exactly one of the three statuses,
with `currentStock == 0` mapped to Out of Stock first, regardless of
`reorderLevel`, then `currentStock ≤ reorderLevel` to Low, otherwise
Healthy. -/
theorem getItemStatus_classifies (i : Item)
    (h : i.status = none ∨ i.status = some "") :
    (getItemStatus i = "Out of Stock" ∨ getItemStatus i = "Low"
      ∨ getItemStatus i = "Healthy")
    ∧ (i.currentStock = 0 → getItemStatus i = "Out of Stock")
    ∧ (i.currentStock ≠ 0 → i.currentStock ≤ i.reorderLevel → getItemStatus i = "Low")
    ∧ (i.currentStock ≠ 0 → ¬ i.currentStock ≤ i.reorderLevel →
        getItemStatus i = "Healthy") := by
  have ht : statusTruthy i.status = false := by
    rcases h with h | h <;> simp [h, statusTruthy]
  simp only [getItemStatus, ht, Bool.false_eq_true, if_false, stockStatus]
  refine ⟨?_, fun h0 => ?_, fun h0 hlow => ?_, fun h0 hhigh => ?_⟩
  · split_ifs <;> simp
  · simp [h0]
  · simp [h0, hlow]
  · simp [h0, hhigh]

/-- Witness for the amended C1 at the three kinds of input. -/
theorem getItemStatus_classifies_witness :
    getItemStatus wOutItem = "Out of Stock"
    ∧ getItemStatus wLowItem = "Low"
    ∧ getItemStatus wHealthyItem = "Healthy" :=
  ⟨(getItemStatus_classifies wOutItem (Or.inl rfl)).2.1 (by decide),
   (getItemStatus_classifies wLowItem (Or.inl rfl)).2.2.1 (by decide) (by decide),
   (getItemStatus_classifies wHealthyItem (Or.inl rfl)).2.2.2 (by decide) (by decide)⟩

/-- C4: the forecast table is ordered ascending by days-until-stockout
(in the comparator order of the source, where the Infinity sentinel is a
top element), and every Infinity-valued row comes after all finite rows. -/
theorem buildForecast_sorted (today : ℤ) (inv : List Item) :
    (buildForecast today inv).Pairwise rowLe
    ∧ (buildForecast today inv).Pairwise
        (fun a b => a.days = Days.inf → b.days = Days.inf) := by
  have hs : (buildForecast today inv).Pairwise rowLe :=
    List.sorted_insertionSort rowLe (inv.map (forecastRow today))
  exact ⟨hs, hs.imp fun hab ha => days_le_inf_elim (ha ▸ hab)⟩

/-- Witness for C4 on a concrete two-item inventory (one finite row, one
Infinity row). -/
theorem buildForecast_sorted_witness :
    (buildForecast 0 critInv).Pairwise rowLe :=
  (buildForecast_sorted 0 critInv).1

/-- C5: a forecast row's priority is the bucket of its days value — high
exactly on finite days ≤ 7, medium exactly on 7 < days ≤ 14, low otherwise
(so Infinity rows are low), with the exact boundary behaviour at
7, 8, 14 and 15. -/
theorem forecast_priority_buckets :
    (∀ (today : ℤ) (inv : List Item) (r : ForecastRow),
        r ∈ buildForecast today inv → r.priority = forecastPriority r.days)
    ∧ (∀ n : ℤ,
        (forecastPriority (Days.finite n) = "high" ↔ n ≤ 7)
        ∧ (forecastPriority (Days.finite n) = "medium" ↔ 7 < n ∧ n ≤ 14)
        ∧ (forecastPriority (Days.finite n) = "low" ↔ 14 < n))
    ∧ forecastPriority (Days.finite 7) = "high"
    ∧ forecastPriority (Days.finite 8) = "medium"
    ∧ forecastPriority (Days.finite 14) = "medium"
    ∧ forecastPriority (Days.finite 15) = "low"
    ∧ forecastPriority Days.inf = "low" := by
  refine ⟨?_, ?_, by decide, by decide, by decide, by decide, by decide⟩
  · intro today inv r hr
    have hr' : r ∈ inv.map (forecastRow today) :=
      (List.perm_insertionSort rowLe (inv.map (forecastRow today))).mem_iff.mp hr
    obtain ⟨i, _, rfl⟩ := List.mem_map.mp hr'
    rfl
  · intro n
    by_cases h7 : n ≤ 7 <;> by_cases h14 : n ≤ 14 <;>
      simp [forecastPriority, Days.leInt, h7, h14] <;> omega

/-- Witness for C5: the priority field of a row produced for a concrete
inventory agrees with the bucket function, and the 7/8 boundary. -/
theorem forecast_priority_buckets_witness :
    fcRowInf.priority = forecastPriority fcRowInf.days
    ∧ forecastPriority (Days.finite 7) = "high"
    ∧ forecastPriority (Days.finite 8) = "medium" :=
  ⟨forecast_priority_buckets.1 0 fcInv fcRowInf (by decide),
   forecast_priority_buckets.2.2.1,
   forecast_priority_buckets.2.2.2.1⟩

theorem recsList_countP_le_two (inv : List Item) (sup : List Supplier) :
    (recsList inv sup).countP (fun x => decide (x.priority ≤ 2)) ≤ 2 := by
  unfold recsList
  simp only [List.countP_append]
  have b1 : (if 0 < (outOfStockItems inv).length then [outOfStockCard inv] else []).countP
      (fun x => decide (x.priority ≤ 2)) ≤ 1 := by
    split_ifs <;> simp [List.countP_cons, outOfStockCard]
  have b2 : (if 0 < (criticalItems inv).length then [criticalCard inv] else []).countP
      (fun x => decide (x.priority ≤ 2)) ≤ 1 := by
    split_ifs <;> simp [List.countP_cons, criticalCard]
  have b3 : (if 0 < (underutilizedItems inv).length then [underutilizedCard inv] else []).countP
      (fun x => decide (x.priority ≤ 2)) = 0 := by
    split_ifs <;> simp [List.countP_cons, underutilizedCard]
  have b4 : (if 0 < (highUsageItems inv).length then [highUsageCard inv] else []).countP
      (fun x => decide (x.priority ≤ 2)) = 0 := by
    split_ifs <;> simp [List.countP_cons, highUsageCard]
  have b5 : (if (outOfStockItems inv).length = 0 ∧ (criticalItems inv).length = 0
        ∧ (underutilizedItems inv).length = 0 ∧ (highUsageItems inv).length = 0
        ∧ 0 < inv.length then [allHealthyCard] else []).countP
      (fun x => decide (x.priority ≤ 2)) = 0 := by
    split_ifs <;> simp [List.countP_cons, allHealthyCard]
  have b6 : (if 0 < inv.length ∧ sup.length = 0 then [addSuppliersCard] else []).countP
      (fun x => decide (x.priority ≤ 2)) = 0 := by
    split_ifs <;> simp [List.countP_cons, addSuppliersCard]
  omega

theorem mem_take_of_sorted {l : List Recommendation} (hs : List.Sorted recLe l)
    {r : Recommendation} (hr : r ∈ l)
    (hc : l.countP (fun x => decide (x.priority ≤ r.priority)) ≤ 3) :
    r ∈ l.take 3 := by
  by_cases hmem : r ∈ l.take 3
  · exact hmem
  exfalso
  have hdrop : r ∈ l.drop 3 := by
    rcases List.mem_append.mp ((List.take_append_drop 3 l).symm ▸ hr) with h | h
    · exact absurd h hmem
    · exact h
  have hlen3 : 3 < l.length := by
    have h0 : 0 < (l.drop 3).length := List.length_pos.mpr (List.ne_nil_of_mem hdrop)
    rw [List.length_drop] at h0
    omega
  have htlen : (l.take 3).length = 3 := by
    rw [List.length_take]
    omega
  have hall : ∀ x ∈ l.take 3, (fun x => decide (x.priority ≤ r.priority)) x = true := by
    intro x hx
    have hrel : recLe x r := List.Sorted.rel_of_mem_take_of_mem_drop hs hx hdrop
    simpa [recLe] using hrel
  have htake : (l.take 3).countP (fun x => decide (x.priority ≤ r.priority)) = 3 := by
    rw [List.countP_eq_length.mpr hall, htlen]
  have hdc : 0 < (l.drop 3).countP (fun x => decide (x.priority ≤ r.priority)) :=
    List.countP_pos_iff.mpr ⟨r, hdrop, by simp⟩
  have hsum : l.countP (fun x => decide (x.priority ≤ r.priority))
      = (l.take 3).countP (fun x => decide (x.priority ≤ r.priority))
        + (l.drop 3).countP (fun x => decide (x.priority ≤ r.priority)) := by
    conv_lhs => rw [← List.take_append_drop 3 l]
    rw [List.countP_append]
  omega

theorem criticalItems_pos_iff (inv : List Item) :
    0 < (criticalItems inv).length
    ↔ ∃ i ∈ inv, ∃ n : ℤ, getDaysUntilStockout i = Days.finite n ∧ n ≤ 7
        ∧ getItemStatus i ≠ "Out of Stock" := by
  unfold criticalItems
  rw [← List.countP_eq_length_filter, List.countP_pos_iff]
  constructor
  · rintro ⟨i, hi, hp⟩
    refine ⟨i, hi, ?_⟩
    revert hp
    cases h : getDaysUntilStockout i <;> simp [h]
  · rintro ⟨i, hi, n, hn, h7, hne⟩
    refine ⟨i, hi, ?_⟩
    simp [hn, h7, hne]

/-- C6: the low-stock-within-a-week card (priority 2) appears in the output
of `generateRecommendations` if and only if some item has finite
days-until-stockout at most 7 and is not already classified Out of Stock
(so no item is counted by both rule 1 and rule 2). -/
theorem low_stock_rule_iff (inv : List Item) (sup : List Supplier) :
    (∃ r ∈ generateRecommendations inv sup, r.priority = 2)
    ↔ ∃ i ∈ inv, ∃ n : ℤ, getDaysUntilStockout i = Days.finite n ∧ n ≤ 7
        ∧ getItemStatus i ≠ "Out of Stock" := by
  rw [← criticalItems_pos_iff]
  constructor
  · rintro ⟨r, hr, hp2⟩
    rcases mem_recsList.mp (mem_recsList_of_mem_generateRecommendations hr) with
      ⟨_, rfl⟩ | ⟨hc, rfl⟩ | ⟨_, rfl⟩ | ⟨_, rfl⟩ | ⟨_, rfl⟩ | ⟨_, rfl⟩
    · exact absurd hp2 (by simp [outOfStockCard])
    · exact hc
    · exact absurd hp2 (by simp [underutilizedCard])
    · exact absurd hp2 (by simp [highUsageCard])
    · exact absurd hp2 (by simp [allHealthyCard])
    · exact absurd hp2 (by simp [addSuppliersCard])
  · intro hc
    have hmemr : criticalCard inv ∈ recsList inv sup :=
      mem_recsList.mpr (Or.inr (Or.inl ⟨hc, rfl⟩))
    have hmeml : criticalCard inv ∈ List.insertionSort recLe (recsList inv sup) :=
      (List.perm_insertionSort recLe (recsList inv sup)).mem_iff.mpr hmemr
    have hsorted : List.Sorted recLe (List.insertionSort recLe (recsList inv sup)) :=
      List.sorted_insertionSort recLe (recsList inv sup)
    have hprio : (criticalCard inv).priority = 2 := rfl
    have hcount : (List.insertionSort recLe (recsList inv sup)).countP
        (fun x => decide (x.priority ≤ (criticalCard inv).priority)) ≤ 3 := by
      simp only [hprio]
      rw [(List.perm_insertionSort recLe (recsList inv sup)).countP_eq]
      exact le_trans (recsList_countP_le_two inv sup) (by omega)
    exact ⟨criticalCard inv, mem_take_of_sorted hsorted hmeml hcount, rfl⟩

/-- Witness for C6: a concrete inventory with one item at 2 days of stock
produces the priority-2 card. -/
theorem low_stock_rule_iff_witness :
    ∃ r ∈ generateRecommendations critInv [], r.priority = 2 :=
  (low_stock_rule_iff critInv []).mpr
    ⟨{ name := "Wipes", currentStock := 2, reorderLevel := 10, dailyUsage := 1 },
     by decide, 2, by norm_num [getDaysUntilStockout], by decide, by decide⟩

/-- Counterexample to C2 as stated: with a non-empty inventory, an empty
supplier collection, and none of rules 1-4 matching, the output is NOT just
the all-healthy card — the add-suppliers nudge (priority 6) is returned as
well, since the cap of 3 does not cut a 2-element list. -/
theorem generateRecommendations_nudge_not_hidden :
    0 < ([healthyOnlyItem] : List Item).length
    ∧ ([] : List Supplier).length = 0
    ∧ (outOfStockItems [healthyOnlyItem]).length = 0
    ∧ (criticalItems [healthyOnlyItem]).length = 0
    ∧ (underutilizedItems [healthyOnlyItem]).length = 0
    ∧ (highUsageItems [healthyOnlyItem]).length = 0
    ∧ (generateRecommendations [healthyOnlyItem] []).map Recommendation.priority = [5, 6] := by
  decide

/-- C2 amended: `generateRecommendations` never returns more than 3 entries
and never returns the all-healthy card when any of rules 1-4 matched; when
the inventory is non-empty, the supplier collection is empty, and none of
rules 1-4 matched, the output is exactly the all-healthy card followed by
the add-suppliers nudge (the nudge is not hidden). -/
theorem generateRecommendations_cap_and_healthy (inv : List Item) (sup : List Supplier) :
    (generateRecommendations inv sup).length ≤ 3
    ∧ (∀ r ∈ generateRecommendations inv sup, r.priority = 5 →
        (outOfStockItems inv).length = 0 ∧ (criticalItems inv).length = 0
        ∧ (underutilizedItems inv).length = 0 ∧ (highUsageItems inv).length = 0
        ∧ 0 < inv.length)
    ∧ ((outOfStockItems inv).length = 0 → (criticalItems inv).length = 0 →
        (underutilizedItems inv).length = 0 → (highUsageItems inv).length = 0 →
        0 < inv.length → sup.length = 0 →
        generateRecommendations inv sup = [allHealthyCard, addSuppliersCard]) := by
  refine ⟨List.length_take_le 3 _, ?_, ?_⟩
  · intro r hr hp5
    rcases mem_recsList.mp (mem_recsList_of_mem_generateRecommendations hr) with
      ⟨_, rfl⟩ | ⟨_, rfl⟩ | ⟨_, rfl⟩ | ⟨_, rfl⟩ | ⟨hcond, rfl⟩ | ⟨_, rfl⟩
    · exact absurd hp5 (by simp [outOfStockCard])
    · exact absurd hp5 (by simp [criticalCard])
    · exact absurd hp5 (by simp [underutilizedCard])
    · exact absurd hp5 (by simp [highUsageCard])
    · exact hcond
    · exact absurd hp5 (by simp [addSuppliersCard])
  · intro h1 h2 h3 h4 h5 h6
    have hrl : recsList inv sup = [allHealthyCard, addSuppliersCard] := by
      unfold recsList
      rw [if_neg (by omega), if_neg (by omega), if_neg (by omega), if_neg (by omega),
        if_pos ⟨h1, h2, h3, h4, h5⟩, if_pos ⟨h5, h6⟩]
      rfl
    unfold generateRecommendations
    rw [hrl]
    rfl

/-- Witness for the amended C2: the healthy-inventory, no-supplier scenario
returns both cards within the cap. -/
theorem generateRecommendations_cap_and_healthy_witness :
    (generateRecommendations [healthyOnlyItem] []).length ≤ 3
    ∧ generateRecommendations [healthyOnlyItem] [] = [allHealthyCard, addSuppliersCard] :=
  ⟨(generateRecommendations_cap_and_healthy [healthyOnlyItem] []).1,
   (generateRecommendations_cap_and_healthy [healthyOnlyItem] []).2.2
     (by decide) (by decide) (by decide) (by decide) (by decide) (by decide)⟩
